import Mathlib

/-!
Verification of `pyvisa/rnames.py` (resource-name parsing and assembling).

The module is embedded shallowly:

* Python strings are Lean `String`s; Python `dict`s mapping resource-part
  names to values become `Dict := String → Option PyVal`.
* Python exceptions become an explicit `PyError` type returned through
  `Except`.  The module distinguishes `InvalidResourceName` (a subclass of
  `ValueError`), plain `ValueError`, `KeyError` and `NotImplementedError`:
  `parse_resource_name` catches only `KeyError` and `InvalidResourceName`.
* Python `%`-formatting with a mapping (`template % out`) is modelled by
  `pyFormat`, a small interpreter for `%(name)s` templates.
* `str.lstrip(chars)` strips a leading run of characters drawn from the
  *character set* of its argument (not the prefix); `py_lstrip` mirrors that.
* In the source, the bodies of `_GPIBInstr.parse`, `_GPIBIntfc.parse` and
  `_PXIInstr.parse` are dedented below their `def` line; the statements are
  embedded as the bodies of those methods, which is the only reading under
  which the module has any behaviour.  The genuine semantic slips of the file
  are kept exactly: `_GPIBInstr` and `_PXIInstr` bind their template to the
  misspelled attribute `canonical_ressource_name` and `_GPIBIntfc` to
  `canonical_name`, so all three inherit the base class's empty
  `canonical_resource_name`; `_ASRLInstr` names its parsing method
  `_asrl_instr` and therefore inherits the base `parse`, which raises
  `NotImplementedError`; `_USBRaw.defaults` misspells `borad`; and the
  module-level `assemble_ressource_name` is a `pass` stub returning `None`.
-/

/-- Modelled from the spec: the enumeration of interface types supplied by
`pyvisa.constants` (not under `src/`): ASRL, GPIB, PXI, TCPIP, USB, VXI. -/
inductive InterfaceType where
  | asrl | gpib | pxi | tcpip | usb | vxi
  deriving DecidableEq

/-- Python values stored in a parsed-resource dict: strings, the integer
constant `VI_NO_SEC_ADDR`, and `InterfaceType` enumeration members. -/
inductive PyVal where
  | str (s : String)
  | int (n : Nat)
  | intf (i : InterfaceType)
  deriving DecidableEq

/-- Python exceptions raised by the module.  `invalidResourceName` is the
module's own subclass of `ValueError`; `valueError` is a plain `ValueError`
(raised by `call_subparser` for unknown interface types), which
`parse_resource_name`'s `except InvalidResourceName` clause does not catch. -/
inductive PyError where
  | invalidResourceName (msg : String)
  | valueError (msg : String)
  | keyError
  | typeError
  | notImplementedError
  deriving DecidableEq

/-- A Python dict from resource-part names to values. -/
abbrev Dict := String → Option PyVal

/-- The empty dict. -/
def dempty : Dict := fun _ => none

/-- Dict update `d[k] = v`. -/
def dupdate (d : Dict) (k : String) (v : PyVal) : Dict :=
  fun k' => if k' = k then some v else d k'

/-- A dict literal `dict(k1=v1, ..., kn=vn)` (all keys distinct). -/
def dictOf : List (String × PyVal) → Dict
  | [] => dempty
  | (k, v) :: rest => dupdate (dictOf rest) k v

/-- Dict item access `d[k]`, raising `KeyError` when the key is absent. -/
def dget (d : Dict) (k : String) : Except PyError PyVal :=
  match d k with
  | some v => .ok v
  | none => .error .keyError

/-- Python `p = defaults.copy(); p.update(parts)`: entries of `parts` win. -/
def dmerge (defaults parts : Dict) : Dict :=
  fun k => match parts k with
    | some v => some v
    | none => defaults k

/-- Python `str()` conversion used by `%s` formatting.  The `intf` case is
never exercised by the module's templates. -/
def pyStr : PyVal → String
  | .str s => s
  | .int n => toString n
  | .intf _ => "InterfaceType"

/-- Python `str.strip()` with no argument: trim whitespace at both ends. -/
def py_strip (s : String) : String :=
  String.mk (((s.toList.dropWhile Char.isWhitespace).reverse.dropWhile
    Char.isWhitespace).reverse)

/-- Splitting a character list on the literal two-character separator `::`,
mirroring Python `str.split('::')`. -/
def splitCC : List Char → List (List Char)
  | [] => [[]]
  | ':' :: ':' :: rest => [] :: splitCC rest
  | c :: rest =>
    match splitCC rest with
    | [] => [[c]]
    | g :: gs => (c :: g) :: gs

/-- Python `s.split('::')`. -/
def py_split_dcolon (s : String) : List String :=
  (splitCC s.toList).map String.mk

/-- Python `str.upper()` (ASCII). -/
def py_upper (s : String) : String :=
  String.mk (s.toList.map Char.toUpper)

/-- Python `s.startswith(pre)`. -/
def py_startswith (s pre : String) : Bool :=
  pre.toList.isPrefixOf s.toList

/-- Python `s.lstrip(chars)`: remove the longest leading run of characters
each of which occurs in `chars`.  This is not prefix removal. -/
def py_lstrip (s chars : String) : String :=
  String.mk (s.toList.dropWhile (fun c => chars.toList.contains c))

/-- One segment of a `%`-format template: a literal character or a
`%(key)s` conversion. -/
inductive Seg where
  | lit (c : Char)
  | hole (key : String)
  deriving DecidableEq

/-- Parse a `%`-format template into segments, with a fuel parameter to
keep the recursion structural (the caller supplies the template length,
which always suffices since every step consumes at least one character).
Only the `%(key)s` form occurs in the module's templates; any other use of
`%` is rejected (Python would raise `ValueError`), which no code path of
the module reaches. -/
def parseSegsAux : Nat → List Char → Option (List Seg)
  | _, [] => some []
  | 0, _ :: _ => none
  | fuel + 1, '%' :: '(' :: rest =>
    match rest.dropWhile (fun c => c != ')') with
    | ')' :: 's' :: rest2 =>
      (parseSegsAux fuel rest2).map
        (fun segs => .hole (String.mk (rest.takeWhile (fun c => c != ')'))) :: segs)
    | _ => none
  | fuel + 1, c :: rest => (parseSegsAux fuel rest).map (fun segs => .lit c :: segs)

/-- Parse a `%`-format template into segments. -/
def parseSegs (l : List Char) : Option (List Seg) :=
  parseSegsAux l.length l

/-- Render parsed segments against a dict; a hole whose key is absent
raises `KeyError`, as Python `%`-formatting with a mapping does. -/
def renderL : List Seg → Dict → Except PyError (List Char)
  | [], _ => .ok []
  | .lit c :: rest, m =>
    match renderL rest m with
    | .ok t => .ok (c :: t)
    | .error e => .error e
  | .hole k :: rest, m =>
    match m k with
    | none => .error .keyError
    | some v =>
      match renderL rest m with
      | .ok t => .ok ((pyStr v).toList ++ t)
      | .error e => .error e

/-- Python `template % m` for a string template and a dict `m`. -/
def pyFormat (tpl : String) (m : Dict) : Except PyError String :=
  match parseSegs tpl.toList with
  | none => .error (.valueError "unsupported format string")
  | some segs =>
    match renderL segs m with
    | .ok t => .ok (String.mk t)
    | .error e => .error e

/-- The hole keys referenced by a template. -/
def holesOf (tpl : String) : List String :=
  match parseSegs tpl.toList with
  | some segs => segs.filterMap (fun s => match s with | .hole k => some k | _ => none)
  | none => []

/-- Modelled from the spec: `pyvisa.constants.VI_NO_SEC_ADDR`, the configured
"no secondary address" sentinel (not under `src/`); the VISA value `0xFFFF`. -/
def VI_NO_SEC_ADDR : Nat := 0xFFFF

/-- The `_INTERFACE_TYPES` table, in the source's entry order. -/
def INTERFACE_TYPES : List (String × InterfaceType) :=
  [("ASRL", .asrl), ("GPIB", .gpib), ("PXI", .pxi),
   ("TCPIP", .tcpip), ("USB", .usb), ("VXI", .vxi)]

/-- The canonical name of an `InterfaceType` constant, i.e. the key under
which it appears in `_INTERFACE_TYPES`. -/
def interfaceName : InterfaceType → String
  | .asrl => "ASRL"
  | .gpib => "GPIB"
  | .pxi => "PXI"
  | .tcpip => "TCPIP"
  | .usb => "USB"
  | .vxi => "VXI"

/-- The `_RESOURCE_CLASSES` tuple. -/
def RESOURCE_CLASSES : List String :=
  ["INSTR", "INTFC", "BACKPLANE", "MEMACC", "SOCKET", "RAW", "SERVANT"]

/-- A registered subparser: its effective `canonical_resource_name` class
attribute, its `defaults` dict, and its `parse` method. -/
structure Subparser where
  canonical_resource_name : String
  defaults : Dict
  parse : String → List String → Except PyError Dict

/-- The base class `parse`, raising `NotImplementedError`. -/
def base_parse (_ : String) (_ : List String) : Except PyError Dict :=
  .error .notImplementedError

/-- The shared `_BaseParserAssembler.assemble`: merge the supplied parts over
the defaults and instantiate the template. -/
def assemble (g : Subparser) (parts : Dict) : Except PyError String :=
  pyFormat g.canonical_resource_name (dmerge g.defaults parts)

/-- `_GPIBInstr.defaults`. -/
def GPIBInstr_defaults : Dict :=
  dictOf [("board", .str "0"), ("secondary_address", .int VI_NO_SEC_ADDR)]

/-- The value `_GPIBInstr` binds to the misspelled attribute
`canonical_ressource_name`; nothing in the module reads it. -/
def GPIBInstr_canonical_ressource_name : String :=
  "GPIB%(board)s::%(primary_address)s::%(secondary_address)s::INSTR"

/-- The effective `_GPIBInstr.canonical_resource_name`: the subclass only
binds the misspelled `canonical_ressource_name`, so attribute lookup falls
back to `_BaseParserAssembler.canonical_resource_name = ''`. -/
def GPIBInstr_canonical_resource_name : String := ""

/-- `_GPIBInstr.parse`. -/
def GPIBInstr_parse (board : String) (parts : List String) : Except PyError Dict :=
  match if board = "" then dget GPIBInstr_defaults "board" else .ok (.str board) with
  | .error e => .error e
  | .ok b =>
    match parts with
    | [p, s] =>
      .ok (dictOf [("board", b), ("primary_address", .str p),
                   ("secondary_address", .str s),
                   ("canonical_resource_name", .str GPIBInstr_canonical_resource_name)])
    | [p] =>
      match dget GPIBInstr_defaults "secondary_address" with
      | .error e => .error e
      | .ok sv =>
        .ok (dictOf [("board", b), ("primary_address", .str p),
                     ("secondary_address", sv),
                     ("canonical_resource_name", .str GPIBInstr_canonical_resource_name)])
    | _ => .error (.invalidResourceName
        "GPIB[board]::primary address[::secondary address][::INSTR]")

/-- The `_GPIBInstr` subparser instance. -/
def GPIBInstr : Subparser :=
  { canonical_resource_name := GPIBInstr_canonical_resource_name,
    defaults := GPIBInstr_defaults,
    parse := GPIBInstr_parse }

/-- `_GPIBIntfc.defaults`. -/
def GPIBIntfc_defaults : Dict := dictOf [("board", .str "0")]

/-- The value `_GPIBIntfc` binds to the wrongly named attribute
`canonical_name`; nothing in the module reads it. -/
def GPIBIntfc_canonical_name : String := "GPIB%(board)s::INTFC"

/-- The effective `_GPIBIntfc.canonical_resource_name`: inherited `''`. -/
def GPIBIntfc_canonical_resource_name : String := ""

/-- `_GPIBIntfc.parse`. -/
def GPIBIntfc_parse (board : String) (parts : List String) : Except PyError Dict :=
  match if board = "" then dget GPIBIntfc_defaults "board" else .ok (.str board) with
  | .error e => .error e
  | .ok b =>
    match parts with
    | [] =>
      .ok (dictOf [("board", b),
                   ("canonical_resource_name", .str GPIBIntfc_canonical_resource_name)])
    | _ => .error (.invalidResourceName "GPIB[board]::INTFC")

/-- The `_GPIBIntfc` subparser instance. -/
def GPIBIntfc : Subparser :=
  { canonical_resource_name := GPIBIntfc_canonical_resource_name,
    defaults := GPIBIntfc_defaults,
    parse := GPIBIntfc_parse }

/-- `_ASRLInstr.defaults`. -/
def ASRLInstr_defaults : Dict := dictOf [("board", .str "0")]

/-- `_ASRLInstr.canonical_resource_name` (this one is spelled correctly). -/
def ASRLInstr_canonical_resource_name : String := "ASRL%(board)s::INSTR"

/-- The method `_ASRLInstr._asrl_instr`.  Because of its name it never
overrides `parse`, so no caller in the module reaches it. -/
def ASRLInstr_asrl_instr (board : String) (parts : List String) : Except PyError Dict :=
  if board = "" then .error (.valueError "ASRL INSTR requires a board.")
  else
    match parts with
    | [] => .ok (dictOf [("board", .str board),
                         ("canonical_resource_name", .str "ASRL%(board)s::INSTR")])
    | _ => .error (.invalidResourceName "ASRLboard[::INSTR]")

/-- The `_ASRLInstr` subparser instance: its `parse` is the inherited base
method, which raises `NotImplementedError`. -/
def ASRLInstr : Subparser :=
  { canonical_resource_name := ASRLInstr_canonical_resource_name,
    defaults := ASRLInstr_defaults,
    parse := base_parse }

/-- `_TCPIPInstr.defaults`. -/
def TCPIPInstr_defaults : Dict :=
  dictOf [("board", .str "0"), ("lan_device_name", .str "inst0")]

/-- `_TCPIPInstr.canonical_resource_name`. -/
def TCPIPInstr_canonical_resource_name : String :=
  "TCPIP%(board)s::%(host_address)s::%(lan_device_name)s::INSTR"

/-- `_TCPIPInstr.parse`. -/
def TCPIPInstr_parse (board : String) (parts : List String) : Except PyError Dict :=
  match if board = "" then dget TCPIPInstr_defaults "board" else .ok (.str board) with
  | .error e => .error e
  | .ok b =>
    match parts with
    | [ha, la] =>
      .ok (dictOf [("board", b), ("host_address", .str ha),
                   ("lan_device_name", .str la),
                   ("canonical_resource_name", .str TCPIPInstr_canonical_resource_name)])
    | [ha] =>
      match dget TCPIPInstr_defaults "lan_device_name" with
      | .error e => .error e
      | .ok lv =>
        .ok (dictOf [("board", b), ("host_address", .str ha),
                     ("lan_device_name", lv),
                     ("canonical_resource_name", .str TCPIPInstr_canonical_resource_name)])
    | _ => .error (.invalidResourceName
        "TCPIP[board]::host address[::LAN device name][::INSTR]")

/-- The `_TCPIPInstr` subparser instance. -/
def TCPIPInstr : Subparser :=
  { canonical_resource_name := TCPIPInstr_canonical_resource_name,
    defaults := TCPIPInstr_defaults,
    parse := TCPIPInstr_parse }

/-- `_TCPIPSocket.defaults` (the `'inst0'` port default is the source's). -/
def TCPIPSocket_defaults : Dict :=
  dictOf [("board", .str "0"), ("port", .str "inst0")]

/-- `_TCPIPSocket.canonical_resource_name`. -/
def TCPIPSocket_canonical_resource_name : String :=
  "TCPIP%(board)s::%(host_address)s::%(port)s::SOCKET"

/-- `_TCPIPSocket.parse`. -/
def TCPIPSocket_parse (board : String) (parts : List String) : Except PyError Dict :=
  match if board = "" then dget TCPIPSocket_defaults "board" else .ok (.str board) with
  | .error e => .error e
  | .ok b =>
    match parts with
    | [ha, pa] =>
      .ok (dictOf [("board", b), ("host_address", .str ha), ("port", .str pa),
                   ("canonical_resource_name", .str TCPIPSocket_canonical_resource_name)])
    | [ha] =>
      match dget TCPIPSocket_defaults "port" with
      | .error e => .error e
      | .ok pv =>
        .ok (dictOf [("board", b), ("host_address", .str ha), ("port", pv),
                     ("canonical_resource_name", .str TCPIPSocket_canonical_resource_name)])
    | _ => .error (.invalidResourceName "TCPIP[board]::host address::port::SOCKET")

/-- The `_TCPIPSocket` subparser instance. -/
def TCPIPSocket : Subparser :=
  { canonical_resource_name := TCPIPSocket_canonical_resource_name,
    defaults := TCPIPSocket_defaults,
    parse := TCPIPSocket_parse }

/-- `_USBInstr.defaults`. -/
def USBInstr_defaults : Dict :=
  dictOf [("board", .str "0"), ("usb_interface_number", .str "0")]

/-- `_USBInstr.canonical_resource_name`. -/
def USBInstr_canonical_resource_name : String :=
  "USB%(board)s::%(manufacturer_id)s::%(model_code)s::%(serial_number)s::%(usb_interface_number)s::INSTR"

/-- `_USBInstr.parse`. -/
def USBInstr_parse (board : String) (parts : List String) : Except PyError Dict :=
  match if board = "" then dget USBInstr_defaults "board" else .ok (.str board) with
  | .error e => .error e
  | .ok b =>
    match parts with
    | [mid, mc, sn, ui] =>
      .ok (dictOf [("board", b), ("manufacturer_id", .str mid),
                   ("model_code", .str mc), ("serial_number", .str sn),
                   ("usb_interface_number", .str ui),
                   ("canonical_resource_name", .str USBInstr_canonical_resource_name)])
    | [mid, mc, sn] =>
      match dget USBInstr_defaults "usb_interface_number" with
      | .error e => .error e
      | .ok ui =>
        .ok (dictOf [("board", b), ("manufacturer_id", .str mid),
                     ("model_code", .str mc), ("serial_number", .str sn),
                     ("usb_interface_number", ui),
                     ("canonical_resource_name", .str USBInstr_canonical_resource_name)])
    | _ => .error (.invalidResourceName
        "USB[board]::manufacturer ID::model code::serial number[::USB interface number][::INSTR]")

/-- The `_USBInstr` subparser instance. -/
def USBInstr : Subparser :=
  { canonical_resource_name := USBInstr_canonical_resource_name,
    defaults := USBInstr_defaults,
    parse := USBInstr_parse }

/-- `_USBRaw.defaults`, keeping the source's misspelled `borad` key; the
method body uses the literal `'0'` directly, so the typo is unobservable. -/
def USBRaw_defaults : Dict :=
  dictOf [("borad", .str "0"), ("usb_interface_number", .str "0")]

/-- `_USBRaw.canonical_resource_name`. -/
def USBRaw_canonical_resource_name : String :=
  "USB%(board)s::%(manufacturer_id)s::%(model_code)s::%(serial_number)s::%(usb_interface_number)s::RAW"

/-- `_USBRaw.parse` (board and interface-number defaults are the literals
`'0'`; the arity-error message is the source's INSTR-flavoured copy). -/
def USBRaw_parse (board : String) (parts : List String) : Except PyError Dict :=
  let b : PyVal := if board = "" then .str "0" else .str board
  match parts with
  | [mid, mc, sn, ui] =>
    .ok (dictOf [("board", b), ("manufacturer_id", .str mid),
                 ("model_code", .str mc), ("serial_number", .str sn),
                 ("usb_interface_number", .str ui),
                 ("canonical_resource_name", .str USBRaw_canonical_resource_name)])
  | [mid, mc, sn] =>
    .ok (dictOf [("board", b), ("manufacturer_id", .str mid),
                 ("model_code", .str mc), ("serial_number", .str sn),
                 ("usb_interface_number", .str "0"),
                 ("canonical_resource_name", .str USBRaw_canonical_resource_name)])
  | _ => .error (.invalidResourceName
      "USB[board]::manufacturer ID::model code::serial number[::USB interface number][::INSTR]")

/-- The `_USBRaw` subparser instance. -/
def USBRaw : Subparser :=
  { canonical_resource_name := USBRaw_canonical_resource_name,
    defaults := USBRaw_defaults,
    parse := USBRaw_parse }

/-- `_PXIInstr.defaults`. -/
def PXIInstr_defaults : Dict := dictOf [("board", .str "0")]

/-- The value `_PXIInstr` binds to the misspelled attribute
`canonical_ressource_name`; nothing in the module reads it. -/
def PXIInstr_canonical_ressource_name : String :=
  "PXI%(board)s::%(primary_address)s::INSTR"

/-- The effective `_PXIInstr.canonical_resource_name`: inherited `''`. -/
def PXIInstr_canonical_resource_name : String := ""

/-- `_PXIInstr.parse`. -/
def PXIInstr_parse (board : String) (parts : List String) : Except PyError Dict :=
  match if board = "" then dget PXIInstr_defaults "board" else .ok (.str board) with
  | .error e => .error e
  | .ok b =>
    match parts with
    | [p] =>
      .ok (dictOf [("board", b), ("primary_address", .str p),
                   ("canonical_resource_name", .str PXIInstr_canonical_resource_name)])
    | _ => .error (.invalidResourceName "PXI[board]::primary address[::INSTR]")

/-- The `_PXIInstr` subparser instance. -/
def PXIInstr : Subparser :=
  { canonical_resource_name := PXIInstr_canonical_resource_name,
    defaults := PXIInstr_defaults,
    parse := PXIInstr_parse }

/-- The `_SUBPARSER` registry populated by the `register_subparser`
decorators. -/
def SUBPARSER (key : String × String) : Option Subparser :=
  if key = ("GPIB", "INSTR") then some GPIBInstr
  else if key = ("GPIB", "INTFC") then some GPIBIntfc
  else if key = ("ASRL", "INSTR") then some ASRLInstr
  else if key = ("TCPIP", "INSTR") then some TCPIPInstr
  else if key = ("TCPIP", "SOCKET") then some TCPIPSocket
  else if key = ("USB", "INSTR") then some USBInstr
  else if key = ("USB", "RAW") then some USBRaw
  else if key = ("PXI", "INSTR") then some PXIInstr
  else none

/-- Line 66 of the source: `out.update(interface_type=const,
resource_class=resource_class)`. -/
def with_meta (m0 : Dict) (const : InterfaceType) (rc : String) : Dict :=
  dupdate (dupdate m0 "interface_type" (.intf const)) "resource_class" (.str rc)

/-- Line 67 of the source: `out['canonical_resource_name'] =
out['canonical_resource_name'] % out`.  The lookup raises `KeyError` when
the key is absent; applying `%` to a non-string raises `TypeError`. -/
def postprocess (m0 : Dict) (const : InterfaceType) (rc : String) : Except PyError Dict :=
  match with_meta m0 const rc "canonical_resource_name" with
  | none => .error .keyError
  | some (.str tpl) =>
    match pyFormat tpl (with_meta m0 const rc) with
    | .error e => .error e
    | .ok c => .ok (dupdate (with_meta m0 const rc) "canonical_resource_name" (.str c))
  | some _ => .error .typeError

/-- The loop inside `call_subparser`: try each `_INTERFACE_TYPES` entry in
order; on the first prefix match, strip the interface characters from the
first token, look up the subparser (`KeyError` if unregistered), run it,
record interface type and resource class, and instantiate the canonical
template against the resulting dict.  If no entry matches, raise the plain
`ValueError` from the function's last line. -/
def subparser_loop : List (String × InterfaceType) → String → String → List String →
    Except PyError Dict
  | [], itp, _, _ => .error (.valueError ("Unknown interface type " ++ itp))
  | (it, const) :: rest, itp, rc, parts =>
    if py_startswith (py_upper itp) it then
      match SUBPARSER (it, rc) with
      | none => .error .keyError
      | some g =>
        match g.parse (py_lstrip itp it) parts with
        | .error e => .error e
        | .ok m0 => postprocess m0 const rc
    else subparser_loop rest itp rc parts

/-- `call_subparser`. -/
def call_subparser (itp rc : String) (parts : List String) : Except PyError Dict :=
  subparser_loop INTERFACE_TYPES itp rc parts

/-- Lines 86-91 of `parse_resource_name`: consume the trailing resource
class token when it is recognized, else default to `INSTR`. -/
def splitClass (parts : List String) : List String × String :=
  match parts.getLast? with
  | none => (parts, "INSTR")
  | some t =>
    if RESOURCE_CLASSES.contains t then (parts.dropLast, t) else (parts, "INSTR")

/-- Lines 83-91 of `parse_resource_name`: strip, split on `::`, take the
first token as the interface-type token, and extract the resource class. -/
def tokenize (s : String) : String × String × List String :=
  let parts := py_split_dcolon (py_strip s)
  let itp := parts.headD ""
  let p := splitClass parts.tail
  (itp, p.2, p.1)

/-- The `try`/`except` wrapper of `parse_resource_name`: stash the original
input under `resource_name` on success, rewrap `KeyError` and
`InvalidResourceName`, and let every other exception propagate. -/
def wrap_errors (s itp rc : String) (res : Except PyError Dict) : Except PyError Dict :=
  match res with
  | .ok out => .ok (dupdate out "resource_name" (.str s))
  | .error .keyError => .error (.invalidResourceName
      ("Invalid resource name: " ++ s ++ "\nCould find subparser for "
        ++ itp ++ " and " ++ rc))
  | .error (.invalidResourceName m) => .error (.invalidResourceName
      ("Invalid resource name: " ++ s ++ "\nThe syntax is " ++ m))
  | .error e => .error e

/-- `parse_resource_name`. -/
def parse_resource_name (s : String) : Except PyError Dict :=
  wrap_errors s (tokenize s).1 (tokenize s).2.1
    (call_subparser (tokenize s).1 (tokenize s).2.1 (tokenize s).2.2)

/-- The module-level `assemble_ressource_name`: its body is `pass`, so it
returns `None` for every input. -/
def assemble_ressource_name (_ : Dict) : Option String := none

/-- `to_canonical_name`: parse, then index the result with
`'canonical_resource_name'`. -/
def to_canonical_name (s : String) : Except PyError PyVal :=
  match parse_resource_name s with
  | .ok r => dget r "canonical_resource_name"
  | .error e => .error e

/-- Project a field out of a parse outcome (`none` on error). -/
def getField (res : Except PyError Dict) (k : String) : Option PyVal :=
  match res with
  | .ok r => r k
  | .error _ => none

/-- Project the error out of a parse outcome. -/
def errOf (res : Except PyError Dict) : Option PyError :=
  match res with
  | .ok _ => none
  | .error e => some e

/-- Whether a parse outcome is an `InvalidResourceName`. -/
def isInvalidOutcome (res : Except PyError Dict) : Bool :=
  match res with
  | .error (.invalidResourceName _) => true
  | _ => false

/-- Whether a parse outcome succeeded. -/
def isOkE (res : Except PyError Dict) : Bool :=
  match res with
  | .ok _ => true
  | _ => false

/-- The dict of a successful parse outcome (`dempty` on error). -/
def getOk (res : Except PyError Dict) : Dict :=
  match res with
  | .ok r => r
  | .error _ => dempty

/-- C2: parsing `TCPIP::192.168.0.1::INSTR` defaults the board to `0` and
the LAN device name to `inst0`, keeps the host address, and produces the
canonical string `TCPIP0::192.168.0.1::inst0::INSTR`. -/
theorem tcpip_instr_example :
    getField (parse_resource_name "TCPIP::192.168.0.1::INSTR") "board"
      = some (.str "0") ∧
    getField (parse_resource_name "TCPIP::192.168.0.1::INSTR") "host_address"
      = some (.str "192.168.0.1") ∧
    getField (parse_resource_name "TCPIP::192.168.0.1::INSTR") "lan_device_name"
      = some (.str "inst0") ∧
    getField (parse_resource_name "TCPIP::192.168.0.1::INSTR") "resource_class"
      = some (.str "INSTR") ∧
    getField (parse_resource_name "TCPIP::192.168.0.1::INSTR") "canonical_resource_name"
      = some (.str "TCPIP0::192.168.0.1::inst0::INSTR") := by
  refine ⟨rfl, rfl, rfl, rfl, rfl⟩

/-- C3: parsing `GPIB::14` defaults board to `0`, reads primary address
`14`, defaults the secondary address to `VI_NO_SEC_ADDR` and the resource
class to INSTR — but the canonical string is the empty string, because
`_GPIBInstr` binds its template to the misspelled attribute
`canonical_ressource_name` and the inherited `canonical_resource_name` is
`''`, not `GPIB0::14::65535::INSTR` as the claim states. -/
theorem gpib_instr_misspelled_canonical :
    getField (parse_resource_name "GPIB::14") "board" = some (.str "0") ∧
    getField (parse_resource_name "GPIB::14") "primary_address" = some (.str "14") ∧
    getField (parse_resource_name "GPIB::14") "secondary_address"
      = some (.int VI_NO_SEC_ADDR) ∧
    getField (parse_resource_name "GPIB::14") "resource_class" = some (.str "INSTR") ∧
    getField (parse_resource_name "GPIB::14") "canonical_resource_name"
      = some (.str "") ∧
    GPIBInstr_canonical_ressource_name
      = "GPIB%(board)s::%(primary_address)s::%(secondary_address)s::INSTR" := by
  refine ⟨rfl, rfl, rfl, rfl, rfl, rfl⟩

/-- C5: parsing `ASRL::INSTR` raises `NotImplementedError`, not
`InvalidResourceName`: `_ASRLInstr` names its parsing method `_asrl_instr`,
so the registered instance inherits the base class `parse`. -/
theorem asrl_instr_not_implemented :
    errOf (parse_resource_name "ASRL::INSTR") = some .notImplementedError := by
  rfl

/-- C6: parsing `GPIB0::14::5::6::INSTR` (three positional tokens, a count
GPIB/INSTR rejects) raises `InvalidResourceName` whose message carries the
GPIB/INSTR expected-format string. -/
theorem gpib_instr_arity_error :
    errOf (parse_resource_name "GPIB0::14::5::6::INSTR")
      = some (.invalidResourceName
          ("Invalid resource name: GPIB0::14::5::6::INSTR\nThe syntax is "
            ++ "GPIB[board]::primary address[::secondary address][::INSTR]")) := by
  rfl

/-- C8: `to_canonical_name` is not idempotent on the code: on the valid
input `GPIB::14` it returns the empty string (misspelled-template bug), and
applying it again to `''` raises a plain `ValueError`, so the composition
differs from the single application. -/
theorem to_canonical_name_not_idempotent :
    to_canonical_name "GPIB::14" = .ok (.str "") ∧
    to_canonical_name "" = .error (.valueError "Unknown interface type ") := by
  refine ⟨rfl, rfl⟩

/-- C1 counterexample: the module-level `assemble_ressource_name` is a
`pass` stub returning `None`, so assembling the fields parsed from the valid
name `TCPIP::1.2.3.4::SOCKET` yields `None`, not the canonical string
`TCPIP0::1.2.3.4::inst0::SOCKET` the parse produced. -/
theorem assemble_stub_breaks_round_trip :
    assemble_ressource_name (getOk (parse_resource_name "TCPIP::1.2.3.4::SOCKET"))
      = none ∧
    getField (parse_resource_name "TCPIP::1.2.3.4::SOCKET") "canonical_resource_name"
      = some (.str "TCPIP0::1.2.3.4::inst0::SOCKET") := by
  refine ⟨rfl, rfl⟩

/-- C4 counterexample: an unknown interface prefix raises the plain
`ValueError` from `call_subparser`, which `parse_resource_name` does not
catch (it only catches `KeyError` and `InvalidResourceName`), so the caller
sees `ValueError`, not `InvalidResourceName`. -/
theorem unknown_interface_raises_value_error :
    isInvalidOutcome (parse_resource_name "FOO::1::INSTR") = false ∧
    errOf (parse_resource_name "FOO::1::INSTR")
      = some (.valueError "Unknown interface type FOO") := by
  refine ⟨rfl, rfl⟩

/-- C10 counterexample: for the lowercase token `gpib0` the prefix match is
case-insensitive but the stripping is `str.lstrip('GPIB')` applied to the
unmodified token, so nothing is stripped and the board field becomes
`gpib0`, not `0` as the claim states. -/
theorem lowercase_board_not_stripped :
    getField (parse_resource_name "gpib0::14") "board" = some (.str "gpib0") ∧
    ("gpib0" : String) ≠ "0" := by
  refine ⟨rfl, by decide⟩

/-- Rendering a template depends only on the values of its hole keys. -/
theorem renderL_congr (segs : List Seg) (m1 m2 : Dict)
    (h : ∀ k, Seg.hole k ∈ segs → m1 k = m2 k) :
    renderL segs m1 = renderL segs m2 := by
  induction segs with
  | nil => rfl
  | cons sg rest ih =>
    cases sg with
    | lit c =>
      simp only [renderL]
      rw [ih (fun k hk => h k (List.mem_cons_of_mem _ hk))]
    | hole k =>
      simp only [renderL]
      rw [h k (List.mem_cons_self _ _), ih (fun k hk => h k (List.mem_cons_of_mem _ hk))]

/-- Formatting a template depends only on the values of its hole keys. -/
theorem pyFormat_congr (tpl : String) (m1 m2 : Dict)
    (h : ∀ k ∈ holesOf tpl, m1 k = m2 k) :
    pyFormat tpl m1 = pyFormat tpl m2 := by
  unfold pyFormat
  cases hp : parseSegs tpl.toList with
  | none => rfl
  | some segs =>
    dsimp only
    rw [renderL_congr segs m1 m2 ?_]
    intro k hk
    apply h
    unfold holesOf
    rw [hp]
    rw [List.mem_filterMap]
    exact ⟨Seg.hole k, hk, rfl⟩

/-- Formatting the empty template yields the empty string on any dict. -/
theorem pyFormat_empty (m : Dict) : pyFormat "" m = .ok "" := rfl

/-- Inversion for `parse_resource_name` succeeding: `call_subparser`
succeeded on the tokenized input, and the result is its dict plus the
`resource_name` entry. -/
theorem parse_ok_inv (s : String) (r : Dict)
    (h : parse_resource_name s = .ok r) :
    ∃ out, call_subparser (tokenize s).1 (tokenize s).2.1 (tokenize s).2.2 = .ok out ∧
      r = dupdate out "resource_name" (.str s) := by
  unfold parse_resource_name wrap_errors at h
  cases hc : call_subparser (tokenize s).1 (tokenize s).2.1 (tokenize s).2.2 with
  | ok out =>
    rw [hc] at h
    simp at h
    exact ⟨out, rfl, h.symm⟩
  | error e =>
    rw [hc] at h
    cases e <;> simp at h

/-- When no `_INTERFACE_TYPES` entry matches, the loop falls through to the
trailing `ValueError`. -/
theorem loop_nomatch (L : List (String × InterfaceType)) (itp rc : String)
    (parts : List String)
    (h : ∀ p ∈ L, py_startswith (py_upper itp) p.1 = false) :
    subparser_loop L itp rc parts
      = .error (.valueError ("Unknown interface type " ++ itp)) := by
  induction L with
  | nil => rfl
  | cons p rest ih =>
    obtain ⟨it, const⟩ := p
    have hf := h (it, const) (List.mem_cons_self _ _)
    unfold subparser_loop
    simp only at hf
    rw [hf]
    simp only [Bool.false_eq_true, if_false]
    exact ih (fun q hq => h q (List.mem_cons_of_mem _ hq))

/-- Inversion for `postprocess` succeeding. -/
theorem postprocess_ok_inv (m0 : Dict) (const : InterfaceType) (rc : String)
    (out : Dict) (h : postprocess m0 const rc = .ok out) :
    ∃ tpl c,
      with_meta m0 const rc "canonical_resource_name" = some (.str tpl) ∧
      pyFormat tpl (with_meta m0 const rc) = .ok c ∧
      out = dupdate (with_meta m0 const rc) "canonical_resource_name" (.str c) := by
  unfold postprocess at h
  cases hcan : with_meta m0 const rc "canonical_resource_name" with
  | none => rw [hcan] at h; simp at h
  | some v =>
    rw [hcan] at h
    cases v with
    | str tpl =>
      dsimp only at h
      cases hfmt : pyFormat tpl (with_meta m0 const rc) with
      | error e => rw [hfmt] at h; simp at h
      | ok c =>
        rw [hfmt] at h
        simp at h
        exact ⟨tpl, c, rfl, hfmt, h.symm⟩
    | int n => simp at h
    | intf i => simp at h

/-- Inversion for the `call_subparser` loop succeeding: some table entry
matched the (uppercased) interface-type token by prefix, the registry held a
subparser for it, the subparser accepted the stripped board candidate and
the positional tokens, and the result is the post-processed dict. -/
theorem subparser_loop_ok_inv (L : List (String × InterfaceType)) (itp rc : String)
    (parts : List String) (out : Dict)
    (h : subparser_loop L itp rc parts = .ok out) :
    ∃ it const g m0,
      (it, const) ∈ L ∧
      py_startswith (py_upper itp) it = true ∧
      SUBPARSER (it, rc) = some g ∧
      g.parse (py_lstrip itp it) parts = .ok m0 ∧
      postprocess m0 const rc = .ok out := by
  induction L with
  | nil => simp [subparser_loop] at h
  | cons p rest ih =>
    obtain ⟨it, const⟩ := p
    unfold subparser_loop at h
    by_cases hs : py_startswith (py_upper itp) it = true
    · rw [if_pos hs] at h
      cases hsub : SUBPARSER (it, rc) with
      | none => rw [hsub] at h; simp at h
      | some g =>
        rw [hsub] at h
        dsimp only at h
        cases hpar : g.parse (py_lstrip itp it) parts with
        | error e => rw [hpar] at h; simp at h
        | ok m0 =>
          rw [hpar] at h
          exact ⟨it, const, g, m0, List.mem_cons_self _ _, hs, hsub, hpar, h⟩
    · rw [if_neg hs] at h
      obtain ⟨it', const', g, m0, hmem, hsw, hsub, hpar, hpost⟩ := ih h
      exact ⟨it', const', g, m0, List.mem_cons_of_mem _ hmem, hsw, hsub, hpar, hpost⟩

/-- A successful prefix match pins the first character of the matched
string. -/
theorem startswith_head_eq (u pre : String) (h : py_startswith u pre = true)
    (hne : pre.toList ≠ []) : u.toList.head? = pre.toList.head? := by
  unfold py_startswith at h
  cases hp : pre.toList with
  | nil => exact absurd hp hne
  | cons a t =>
    rw [hp] at h
    cases hu : u.toList with
    | nil => rw [hu] at h; simp [List.isPrefixOf] at h
    | cons c cs =>
      rw [hu] at h
      simp [List.isPrefixOf] at h
      simp [h.1]

/-- The six interface names have pairwise distinct first characters, so at
most one `_INTERFACE_TYPES` entry can prefix-match a given token. -/
theorem interface_match_unique (u it1 it2 : String) (c1 c2 : InterfaceType)
    (h1 : (it1, c1) ∈ INTERFACE_TYPES) (h2 : (it2, c2) ∈ INTERFACE_TYPES)
    (hs1 : py_startswith u it1 = true) (hs2 : py_startswith u it2 = true) :
    it1 = it2 := by
  simp [INTERFACE_TYPES] at h1 h2
  rcases h1 with ⟨e1, _⟩|⟨e1, _⟩|⟨e1, _⟩|⟨e1, _⟩|⟨e1, _⟩|⟨e1, _⟩ <;>
    rcases h2 with ⟨e2, _⟩|⟨e2, _⟩|⟨e2, _⟩|⟨e2, _⟩|⟨e2, _⟩|⟨e2, _⟩ <;>
    subst e1 <;> subst e2 <;>
    first
    | rfl
    | (exfalso
       have ha := startswith_head_eq u _ hs1 (by decide)
       have hb := startswith_head_eq u _ hs2 (by decide)
       rw [ha] at hb
       exact absurd hb (by decide))

/-- When the matched entry's (interface, class) pair is unregistered, the
loop raises `KeyError` from the `_SUBPARSER` lookup. -/
theorem loop_keyerror (L : List (String × InterfaceType)) (itp rc : String)
    (parts : List String) (it : String) (const : InterfaceType)
    (hmem : (it, const) ∈ L)
    (hsw : py_startswith (py_upper itp) it = true)
    (hnone : SUBPARSER (it, rc) = none)
    (huniq : ∀ it' c', (it', c') ∈ L → py_startswith (py_upper itp) it' = true → it' = it) :
    subparser_loop L itp rc parts = .error .keyError := by
  induction L with
  | nil => simp at hmem
  | cons p rest ih =>
    obtain ⟨ith, ch⟩ := p
    unfold subparser_loop
    by_cases hs : py_startswith (py_upper itp) ith = true
    · rw [if_pos hs]
      have : ith = it := huniq ith ch (List.mem_cons_self _ _) hs
      rw [this, hnone]
    · rw [if_neg hs]
      rcases List.mem_cons.mp hmem with heq | htail
      · injection heq with h1 h2
        subst h1
        exact absurd hsw hs
      · exact ih htail (fun it' c' h' hsw' => huniq it' c' (List.mem_cons_of_mem _ h') hsw')

/-- C4 (amended): when no `_INTERFACE_TYPES` name prefix-matches the
uppercased first token, `parse_resource_name` propagates the plain
`ValueError` raised at the end of `call_subparser`; the wrapper catches only
`KeyError` and `InvalidResourceName`, so the error reaches the caller as
`ValueError`, not as `InvalidResourceName`. -/
theorem unknown_interface_value_error (s : String)
    (h : ∀ p ∈ INTERFACE_TYPES, py_startswith (py_upper (tokenize s).1) p.1 = false) :
    parse_resource_name s
      = .error (.valueError ("Unknown interface type " ++ (tokenize s).1)) := by
  unfold parse_resource_name call_subparser
  rw [loop_nomatch _ _ _ _ h]
  rfl

/-- C4 witness: the amended statement at the concrete input
`FOO::1::INSTR`. -/
theorem unknown_interface_value_error_witness :
    parse_resource_name "FOO::1::INSTR"
      = .error (.valueError "Unknown interface type FOO") :=
  unknown_interface_value_error "FOO::1::INSTR" (by decide)

/-- C7: when some interface name prefix-matches the uppercased first token
but the `_SUBPARSER` registry has no entry for that (interface, class) pair,
the resulting `KeyError` is caught at the top level and re-signalled as
`InvalidResourceName` whose message contains the original input string — it
is not surfaced as a distinct error kind. -/
theorem registry_miss_wrapped_as_invalid (s it : String) (const : InterfaceType)
    (hmem : (it, const) ∈ INTERFACE_TYPES)
    (hsw : py_startswith (py_upper (tokenize s).1) it = true)
    (hnone : SUBPARSER (it, (tokenize s).2.1) = none) :
    parse_resource_name s = .error (.invalidResourceName
      ("Invalid resource name: " ++ s ++ "\nCould find subparser for "
        ++ (tokenize s).1 ++ " and " ++ (tokenize s).2.1)) := by
  unfold parse_resource_name call_subparser
  rw [loop_keyerror INTERFACE_TYPES (tokenize s).1 (tokenize s).2.1 (tokenize s).2.2
    it const hmem hsw hnone
    (fun it' c' h' hsw' => interface_match_unique _ it' it c' const h' hmem hsw' hsw)]
  rfl

/-- C7 witness: `GPIB0::1::SOCKET` has a recognized interface prefix and a
recognized resource class, but no GPIB/SOCKET grammar is registered; the
failure surfaces as `InvalidResourceName` carrying the input. -/
theorem registry_miss_wrapped_as_invalid_witness :
    parse_resource_name "GPIB0::1::SOCKET" = .error (.invalidResourceName
      "Invalid resource name: GPIB0::1::SOCKET\nCould find subparser for GPIB0 and SOCKET") :=
  registry_miss_wrapped_as_invalid "GPIB0::1::SOCKET" "GPIB" .gpib
    (by decide) (by decide) rfl

/-- A successful render shows every hole key is present in the dict. -/
theorem renderL_ok_holes (segs : List Seg) (m : Dict) (t : List Char)
    (h : renderL segs m = .ok t) : ∀ k, Seg.hole k ∈ segs → (m k).isSome := by
  induction segs generalizing t with
  | nil => intro k hk; simp at hk
  | cons sg rest ih =>
    intro k hk
    cases sg with
    | lit c =>
      rcases List.mem_cons.mp hk with he | hm
      · exact absurd he (by simp)
      · unfold renderL at h
        cases hr : renderL rest m with
        | error e => rw [hr] at h; simp at h
        | ok t' => exact ih t' hr k hm
    | hole k' =>
      unfold renderL at h
      cases hv : m k' with
      | none => rw [hv] at h; simp at h
      | some v =>
        rcases List.mem_cons.mp hk with he | hm
        · injection he with hkk
          rw [hkk, hv]
          rfl
        · rw [hv] at h
          dsimp only at h
          cases hr : renderL rest m with
          | error e => rw [hr] at h; simp at h
          | ok t' => exact ih t' hr k hm

/-- A successful format shows every hole key of the template is present. -/
theorem pyFormat_ok_holes (tpl : String) (m : Dict) (c : String)
    (h : pyFormat tpl m = .ok c) : ∀ k ∈ holesOf tpl, (m k).isSome := by
  intro k hk
  unfold holesOf at hk
  unfold pyFormat at h
  cases hp : parseSegs tpl.toList with
  | none => rw [hp] at hk; simp at hk
  | some segs =>
    rw [hp] at hk h
    dsimp only at h hk
    cases hr : renderL segs m with
    | error e => rw [hr] at h; simp at h
    | ok t =>
      refine renderL_ok_holes segs m t hr k ?_
      rw [List.mem_filterMap] at hk
      obtain ⟨a, ha, hfa⟩ := hk
      cases a with
      | lit c2 => simp at hfa
      | hole k2 =>
        simp at hfa
        rw [← hfa]
        exact ha

/-- The base class `parse` never succeeds. -/
theorem base_parse_not_ok (fp : String) (parts : List String) (m0 : Dict) :
    base_parse fp parts ≠ .ok m0 := by
  simp [base_parse]

/-- A successful `_TCPIPInstr.parse` stores the class template under
`canonical_resource_name`. -/
theorem TCPIPInstr_parse_canonical (fp : String) (parts : List String) (m0 : Dict)
    (h : TCPIPInstr_parse fp parts = .ok m0) :
    m0 "canonical_resource_name" = some (.str TCPIPInstr_canonical_resource_name) := by
  unfold TCPIPInstr_parse at h
  cases hbv : (if fp = "" then dget TCPIPInstr_defaults "board" else .ok (.str fp)) with
  | error e => rw [hbv] at h; simp at h
  | ok b =>
    rw [hbv] at h
    dsimp only at h
    rcases parts with _ | ⟨a, _ | ⟨a2, _ | t⟩⟩
    · simp at h
    · rw [show dget TCPIPInstr_defaults "lan_device_name" = .ok (.str "inst0") from rfl] at h
      dsimp only at h
      injection h with h'
      rw [← h']
      rfl
    · dsimp only at h
      injection h with h'
      rw [← h']
      rfl
    · simp at h

/-- A successful `_TCPIPSocket.parse` stores the class template under
`canonical_resource_name`. -/
theorem TCPIPSocket_parse_canonical (fp : String) (parts : List String) (m0 : Dict)
    (h : TCPIPSocket_parse fp parts = .ok m0) :
    m0 "canonical_resource_name" = some (.str TCPIPSocket_canonical_resource_name) := by
  unfold TCPIPSocket_parse at h
  cases hbv : (if fp = "" then dget TCPIPSocket_defaults "board" else .ok (.str fp)) with
  | error e => rw [hbv] at h; simp at h
  | ok b =>
    rw [hbv] at h
    dsimp only at h
    rcases parts with _ | ⟨a, _ | ⟨a2, _ | t⟩⟩
    · simp at h
    · rw [show dget TCPIPSocket_defaults "port" = .ok (.str "inst0") from rfl] at h
      dsimp only at h
      injection h with h'
      rw [← h']
      rfl
    · dsimp only at h
      injection h with h'
      rw [← h']
      rfl
    · simp at h

/-- A successful `_USBInstr.parse` stores the class template under
`canonical_resource_name`. -/
theorem USBInstr_parse_canonical (fp : String) (parts : List String) (m0 : Dict)
    (h : USBInstr_parse fp parts = .ok m0) :
    m0 "canonical_resource_name" = some (.str USBInstr_canonical_resource_name) := by
  unfold USBInstr_parse at h
  cases hbv : (if fp = "" then dget USBInstr_defaults "board" else .ok (.str fp)) with
  | error e => rw [hbv] at h; simp at h
  | ok b =>
    rw [hbv] at h
    dsimp only at h
    rcases parts with _ | ⟨a, _ | ⟨a2, _ | ⟨a3, _ | ⟨a4, _ | t⟩⟩⟩⟩
    · simp at h
    · simp at h
    · simp at h
    · rw [show dget USBInstr_defaults "usb_interface_number" = .ok (.str "0") from rfl] at h
      dsimp only at h
      injection h with h'
      rw [← h']
      rfl
    · dsimp only at h
      injection h with h'
      rw [← h']
      rfl
    · simp at h

/-- A successful `_USBRaw.parse` stores the class template under
`canonical_resource_name`. -/
theorem USBRaw_parse_canonical (fp : String) (parts : List String) (m0 : Dict)
    (h : USBRaw_parse fp parts = .ok m0) :
    m0 "canonical_resource_name" = some (.str USBRaw_canonical_resource_name) := by
  unfold USBRaw_parse at h
  dsimp only at h
  rcases parts with _ | ⟨a, _ | ⟨a2, _ | ⟨a3, _ | ⟨a4, _ | t⟩⟩⟩⟩
  · simp at h
  · simp at h
  · simp at h
  · injection h with h'
    rw [← h']
    rfl
  · injection h with h'
    rw [← h']
    rfl
  · simp at h

/-- A successful `_GPIBInstr.parse` stores the (empty) effective template
under `canonical_resource_name`. -/
theorem GPIBInstr_parse_canonical (fp : String) (parts : List String) (m0 : Dict)
    (h : GPIBInstr_parse fp parts = .ok m0) :
    m0 "canonical_resource_name" = some (.str GPIBInstr_canonical_resource_name) := by
  unfold GPIBInstr_parse at h
  cases hbv : (if fp = "" then dget GPIBInstr_defaults "board" else .ok (.str fp)) with
  | error e => rw [hbv] at h; simp at h
  | ok b =>
    rw [hbv] at h
    dsimp only at h
    rcases parts with _ | ⟨a, _ | ⟨a2, _ | t⟩⟩
    · simp at h
    · rw [show dget GPIBInstr_defaults "secondary_address"
          = .ok (.int VI_NO_SEC_ADDR) from rfl] at h
      dsimp only at h
      injection h with h'
      rw [← h']
      rfl
    · dsimp only at h
      injection h with h'
      rw [← h']
      rfl
    · simp at h

/-- A successful `_GPIBIntfc.parse` stores the (empty) effective template
under `canonical_resource_name`. -/
theorem GPIBIntfc_parse_canonical (fp : String) (parts : List String) (m0 : Dict)
    (h : GPIBIntfc_parse fp parts = .ok m0) :
    m0 "canonical_resource_name" = some (.str GPIBIntfc_canonical_resource_name) := by
  unfold GPIBIntfc_parse at h
  cases hbv : (if fp = "" then dget GPIBIntfc_defaults "board" else .ok (.str fp)) with
  | error e => rw [hbv] at h; simp at h
  | ok b =>
    rw [hbv] at h
    dsimp only at h
    rcases parts with _ | ⟨a, t⟩
    · injection h with h'
      rw [← h']
      rfl
    · simp at h

/-- A successful `_PXIInstr.parse` stores the (empty) effective template
under `canonical_resource_name`. -/
theorem PXIInstr_parse_canonical (fp : String) (parts : List String) (m0 : Dict)
    (h : PXIInstr_parse fp parts = .ok m0) :
    m0 "canonical_resource_name" = some (.str PXIInstr_canonical_resource_name) := by
  unfold PXIInstr_parse at h
  cases hbv : (if fp = "" then dget PXIInstr_defaults "board" else .ok (.str fp)) with
  | error e => rw [hbv] at h; simp at h
  | ok b =>
    rw [hbv] at h
    dsimp only at h
    rcases parts with _ | ⟨a, _ | t⟩
    · simp at h
    · injection h with h'
      rw [← h']
      rfl
    · simp at h

/-- A successful `_GPIBInstr.parse` stores the board candidate, defaulted
to `'0'` when empty, under `board`. -/
theorem GPIBInstr_parse_board (fp : String) (parts : List String) (m0 : Dict)
    (h : GPIBInstr_parse fp parts = .ok m0) :
    m0 "board" = some (if fp = "" then PyVal.str "0" else .str fp) := by
  unfold GPIBInstr_parse at h
  by_cases hb : fp = ""
  · rw [if_pos hb, show dget GPIBInstr_defaults "board" = .ok (.str "0") from rfl] at h
    rw [if_pos hb]
    dsimp only at h
    rcases parts with _ | ⟨a, _ | ⟨a2, _ | t⟩⟩
    · simp at h
    · rw [show dget GPIBInstr_defaults "secondary_address"
          = .ok (.int VI_NO_SEC_ADDR) from rfl] at h
      dsimp only at h
      injection h with h'
      rw [← h']
      rfl
    · dsimp only at h
      injection h with h'
      rw [← h']
      rfl
    · simp at h
  · rw [if_neg hb] at h
    rw [if_neg hb]
    dsimp only at h
    rcases parts with _ | ⟨a, _ | ⟨a2, _ | t⟩⟩
    · simp at h
    · rw [show dget GPIBInstr_defaults "secondary_address"
          = .ok (.int VI_NO_SEC_ADDR) from rfl] at h
      dsimp only at h
      injection h with h'
      rw [← h']
      rfl
    · dsimp only at h
      injection h with h'
      rw [← h']
      rfl
    · simp at h

/-- Each `_INTERFACE_TYPES` entry maps the canonical name of its constant. -/
theorem interfaceName_of_mem (it0 : String) (const : InterfaceType)
    (h : (it0, const) ∈ INTERFACE_TYPES) : interfaceName const = it0 := by
  simp [INTERFACE_TYPES] at h
  rcases h with ⟨h1, h2⟩|⟨h1, h2⟩|⟨h1, h2⟩|⟨h1, h2⟩|⟨h1, h2⟩|⟨h1, h2⟩ <;>
    subst h1 <;> subst h2 <;> rfl

/-- Inversion for the `_SUBPARSER` registry: the eight registered pairs. -/
theorem SUBPARSER_inv (k : String × String) (g : Subparser) (h : SUBPARSER k = some g) :
    (k = ("GPIB", "INSTR") ∧ g = GPIBInstr) ∨
    (k = ("GPIB", "INTFC") ∧ g = GPIBIntfc) ∨
    (k = ("ASRL", "INSTR") ∧ g = ASRLInstr) ∨
    (k = ("TCPIP", "INSTR") ∧ g = TCPIPInstr) ∨
    (k = ("TCPIP", "SOCKET") ∧ g = TCPIPSocket) ∨
    (k = ("USB", "INSTR") ∧ g = USBInstr) ∨
    (k = ("USB", "RAW") ∧ g = USBRaw) ∨
    (k = ("PXI", "INSTR") ∧ g = PXIInstr) := by
  unfold SUBPARSER at h
  split_ifs at h with h1 h2 h3 h4 h5 h6 h7 h8
  · exact Or.inl ⟨h1, (Option.some.inj h).symm⟩
  · exact Or.inr (Or.inl ⟨h2, (Option.some.inj h).symm⟩)
  · exact Or.inr (Or.inr (Or.inl ⟨h3, (Option.some.inj h).symm⟩))
  · exact Or.inr (Or.inr (Or.inr (Or.inl ⟨h4, (Option.some.inj h).symm⟩)))
  · exact Or.inr (Or.inr (Or.inr (Or.inr (Or.inl ⟨h5, (Option.some.inj h).symm⟩))))
  · exact Or.inr (Or.inr (Or.inr (Or.inr (Or.inr (Or.inl ⟨h6, (Option.some.inj h).symm⟩)))))
  · exact Or.inr (Or.inr (Or.inr (Or.inr (Or.inr (Or.inr
      (Or.inl ⟨h7, (Option.some.inj h).symm⟩))))))
  · exact Or.inr (Or.inr (Or.inr (Or.inr (Or.inr (Or.inr (Or.inr
      ⟨h8, (Option.some.inj h).symm⟩))))))

/-- C1 (amended): for every resource name that parses successfully, the
shared `_BaseParserAssembler.assemble` of the registered subparser for the
parsed (interface type, resource class) pair, applied to the parsed field
mapping, returns exactly the parse's `canonical_resource_name` (degenerately
the empty string for the grammars whose template attribute is misspelled).
The module-level `assemble_ressource_name` stub does not satisfy this law,
since it returns `None`. -/
theorem parse_assemble_round_trip (s : String) (r : Dict) (c : String)
    (it : InterfaceType) (rc : String) (g : Subparser)
    (hp : parse_resource_name s = .ok r)
    (hit : r "interface_type" = some (.intf it))
    (hrc : r "resource_class" = some (.str rc))
    (hc : r "canonical_resource_name" = some (.str c))
    (hg : SUBPARSER (interfaceName it, rc) = some g) :
    assemble g r = .ok c := by
  obtain ⟨out, hcall, hr⟩ := parse_ok_inv s r hp
  obtain ⟨it0, const, g0, m0, hmem, hsw, hsub, hpar, hpost⟩ :=
    subparser_loop_ok_inv _ _ _ _ _ hcall
  obtain ⟨tpl, c0, hcan, hfmt, hout⟩ := postprocess_ok_inv _ _ _ _ hpost
  subst hout
  subst hr
  have hconst : const = it := PyVal.intf.inj (Option.some.inj hit)
  have hrceq : (tokenize s).2.1 = rc := PyVal.str.inj (Option.some.inj hrc)
  have hceq : c0 = c := PyVal.str.inj (Option.some.inj hc)
  subst hconst
  subst hrceq
  subst hceq
  have hname : interfaceName const = it0 := interfaceName_of_mem it0 const hmem
  rw [hname] at hg
  have hgg : g = g0 := by rw [hg] at hsub; exact Option.some.inj hsub
  subst hgg
  have hcan' : m0 "canonical_resource_name" = some (.str tpl) := hcan
  rcases SUBPARSER_inv _ _ hsub with ⟨hk, hg0⟩ | ⟨hk, hg0⟩ | ⟨hk, hg0⟩ | ⟨hk, hg0⟩
    | ⟨hk, hg0⟩ | ⟨hk, hg0⟩ | ⟨hk, hg0⟩ | ⟨hk, hg0⟩ <;> subst hg0
  · -- GPIB / INSTR: the effective template is the empty string
    have hcanon := GPIBInstr_parse_canonical _ _ _ hpar
    have htpl : tpl = GPIBInstr_canonical_resource_name :=
      (PyVal.str.inj (Option.some.inj (hcanon.symm.trans hcan'))).symm
    subst htpl
    have h0 : pyFormat GPIBInstr_canonical_resource_name
        (with_meta m0 const (tokenize s).2.1) = .ok "" := rfl
    have hc0 : ("" : String) = c0 := Except.ok.inj (h0.symm.trans hfmt)
    rw [← hc0]
    rfl
  · -- GPIB / INTFC: the effective template is the empty string
    have hcanon := GPIBIntfc_parse_canonical _ _ _ hpar
    have htpl : tpl = GPIBIntfc_canonical_resource_name :=
      (PyVal.str.inj (Option.some.inj (hcanon.symm.trans hcan'))).symm
    subst htpl
    have h0 : pyFormat GPIBIntfc_canonical_resource_name
        (with_meta m0 const (tokenize s).2.1) = .ok "" := rfl
    have hc0 : ("" : String) = c0 := Except.ok.inj (h0.symm.trans hfmt)
    rw [← hc0]
    rfl
  · -- ASRL / INSTR: parse is the base method and never succeeds
    exact absurd hpar
      (base_parse_not_ok (py_lstrip (tokenize s).1 it0) (tokenize s).2.2 m0)
  · -- TCPIP / INSTR
    have hcanon := TCPIPInstr_parse_canonical _ _ _ hpar
    have htpl : tpl = TCPIPInstr_canonical_resource_name :=
      (PyVal.str.inj (Option.some.inj (hcanon.symm.trans hcan'))).symm
    subst htpl
    have hagree : pyFormat TCPIPInstr_canonical_resource_name
        (dmerge TCPIPInstr_defaults
          (dupdate (dupdate (with_meta m0 const (tokenize s).2.1)
            "canonical_resource_name" (.str c0)) "resource_name" (.str s)))
        = pyFormat TCPIPInstr_canonical_resource_name
            (with_meta m0 const (tokenize s).2.1) := by
      apply pyFormat_congr
      intro k hk
      have hsome := pyFormat_ok_holes _ _ _ hfmt k hk
      obtain ⟨v, hv⟩ := Option.isSome_iff_exists.mp hsome
      have hRk : (dupdate (dupdate (with_meta m0 const (tokenize s).2.1)
          "canonical_resource_name" (.str c0)) "resource_name" (.str s)) k
          = with_meta m0 const (tokenize s).2.1 k := by
        rw [show holesOf TCPIPInstr_canonical_resource_name
            = ["board", "host_address", "lan_device_name"] from rfl] at hk
        simp at hk
        rcases hk with rfl | rfl | rfl <;> rfl
      simp only [dmerge]
      rw [hRk, hv]
    exact hagree.trans hfmt
  · -- TCPIP / SOCKET
    have hcanon := TCPIPSocket_parse_canonical _ _ _ hpar
    have htpl : tpl = TCPIPSocket_canonical_resource_name :=
      (PyVal.str.inj (Option.some.inj (hcanon.symm.trans hcan'))).symm
    subst htpl
    have hagree : pyFormat TCPIPSocket_canonical_resource_name
        (dmerge TCPIPSocket_defaults
          (dupdate (dupdate (with_meta m0 const (tokenize s).2.1)
            "canonical_resource_name" (.str c0)) "resource_name" (.str s)))
        = pyFormat TCPIPSocket_canonical_resource_name
            (with_meta m0 const (tokenize s).2.1) := by
      apply pyFormat_congr
      intro k hk
      have hsome := pyFormat_ok_holes _ _ _ hfmt k hk
      obtain ⟨v, hv⟩ := Option.isSome_iff_exists.mp hsome
      have hRk : (dupdate (dupdate (with_meta m0 const (tokenize s).2.1)
          "canonical_resource_name" (.str c0)) "resource_name" (.str s)) k
          = with_meta m0 const (tokenize s).2.1 k := by
        rw [show holesOf TCPIPSocket_canonical_resource_name
            = ["board", "host_address", "port"] from rfl] at hk
        simp at hk
        rcases hk with rfl | rfl | rfl <;> rfl
      simp only [dmerge]
      rw [hRk, hv]
    exact hagree.trans hfmt
  · -- USB / INSTR
    have hcanon := USBInstr_parse_canonical _ _ _ hpar
    have htpl : tpl = USBInstr_canonical_resource_name :=
      (PyVal.str.inj (Option.some.inj (hcanon.symm.trans hcan'))).symm
    subst htpl
    have hagree : pyFormat USBInstr_canonical_resource_name
        (dmerge USBInstr_defaults
          (dupdate (dupdate (with_meta m0 const (tokenize s).2.1)
            "canonical_resource_name" (.str c0)) "resource_name" (.str s)))
        = pyFormat USBInstr_canonical_resource_name
            (with_meta m0 const (tokenize s).2.1) := by
      apply pyFormat_congr
      intro k hk
      have hsome := pyFormat_ok_holes _ _ _ hfmt k hk
      obtain ⟨v, hv⟩ := Option.isSome_iff_exists.mp hsome
      have hRk : (dupdate (dupdate (with_meta m0 const (tokenize s).2.1)
          "canonical_resource_name" (.str c0)) "resource_name" (.str s)) k
          = with_meta m0 const (tokenize s).2.1 k := by
        rw [show holesOf USBInstr_canonical_resource_name
            = ["board", "manufacturer_id", "model_code", "serial_number",
               "usb_interface_number"] from rfl] at hk
        simp at hk
        rcases hk with rfl | rfl | rfl | rfl | rfl <;> rfl
      simp only [dmerge]
      rw [hRk, hv]
    exact hagree.trans hfmt
  · -- USB / RAW
    have hcanon := USBRaw_parse_canonical _ _ _ hpar
    have htpl : tpl = USBRaw_canonical_resource_name :=
      (PyVal.str.inj (Option.some.inj (hcanon.symm.trans hcan'))).symm
    subst htpl
    have hagree : pyFormat USBRaw_canonical_resource_name
        (dmerge USBRaw_defaults
          (dupdate (dupdate (with_meta m0 const (tokenize s).2.1)
            "canonical_resource_name" (.str c0)) "resource_name" (.str s)))
        = pyFormat USBRaw_canonical_resource_name
            (with_meta m0 const (tokenize s).2.1) := by
      apply pyFormat_congr
      intro k hk
      have hsome := pyFormat_ok_holes _ _ _ hfmt k hk
      obtain ⟨v, hv⟩ := Option.isSome_iff_exists.mp hsome
      have hRk : (dupdate (dupdate (with_meta m0 const (tokenize s).2.1)
          "canonical_resource_name" (.str c0)) "resource_name" (.str s)) k
          = with_meta m0 const (tokenize s).2.1 k := by
        rw [show holesOf USBRaw_canonical_resource_name
            = ["board", "manufacturer_id", "model_code", "serial_number",
               "usb_interface_number"] from rfl] at hk
        simp at hk
        rcases hk with rfl | rfl | rfl | rfl | rfl <;> rfl
      simp only [dmerge]
      rw [hRk, hv]
    exact hagree.trans hfmt
  · -- PXI / INSTR: the effective template is the empty string
    have hcanon := PXIInstr_parse_canonical _ _ _ hpar
    have htpl : tpl = PXIInstr_canonical_resource_name :=
      (PyVal.str.inj (Option.some.inj (hcanon.symm.trans hcan'))).symm
    subst htpl
    have h0 : pyFormat PXIInstr_canonical_resource_name
        (with_meta m0 const (tokenize s).2.1) = .ok "" := rfl
    have hc0 : ("" : String) = c0 := Except.ok.inj (h0.symm.trans hfmt)
    rw [← hc0]
    rfl

/-- C1 witness: the amended round-trip law at `TCPIP::10.0.0.1::INSTR`. -/
theorem parse_assemble_round_trip_witness :
    assemble TCPIPInstr (getOk (parse_resource_name "TCPIP::10.0.0.1::INSTR"))
      = .ok "TCPIP0::10.0.0.1::inst0::INSTR" :=
  parse_assemble_round_trip "TCPIP::10.0.0.1::INSTR"
    (getOk (parse_resource_name "TCPIP::10.0.0.1::INSTR"))
    "TCPIP0::10.0.0.1::inst0::INSTR" .tcpip "INSTR" TCPIPInstr
    rfl rfl rfl rfl rfl

/-- Restated from the claim's wording (C9): the resource class is the last
`::`-token when that token is a recognized class name, else `INSTR`. -/
def claimed_resource_class (s : String) : String :=
  match ((py_split_dcolon (py_strip s)).tail).getLast? with
  | some t => if RESOURCE_CLASSES.contains t then t else "INSTR"
  | none => "INSTR"

/-- Restated from the claim's wording (C9): the tokens handed to the
grammar, with the recognized class token (when present) consumed. -/
def claimed_remaining_tokens (s : String) : List String :=
  match ((py_split_dcolon (py_strip s)).tail).getLast? with
  | some t =>
    if RESOURCE_CLASSES.contains t then ((py_split_dcolon (py_strip s)).tail).dropLast
    else (py_split_dcolon (py_strip s)).tail
  | none => (py_split_dcolon (py_strip s)).tail

/-- The code's tokenization agrees with the claim's description. -/
theorem tokenize_eq_claimed (s : String) :
    tokenize s = ((py_split_dcolon (py_strip s)).headD "",
      claimed_resource_class s, claimed_remaining_tokens s) := by
  unfold tokenize claimed_resource_class claimed_remaining_tokens splitClass
  dsimp only
  cases hl : ((py_split_dcolon (py_strip s)).tail).getLast? with
  | none => simp only [hl]
  | some t =>
    simp only [hl]
    by_cases hc : t ∈ RESOURCE_CLASSES <;> simp [hc]

/-- A successful parse records the extracted class under `resource_class`. -/
theorem parse_ok_resource_class (s : String) (r : Dict)
    (hp : parse_resource_name s = .ok r) :
    r "resource_class" = some (.str (tokenize s).2.1) := by
  obtain ⟨out, hcall, hr⟩ := parse_ok_inv s r hp
  obtain ⟨it0, const, g0, m0, hmem, hsw, hsub, hpar, hpost⟩ :=
    subparser_loop_ok_inv _ _ _ _ _ hcall
  obtain ⟨tpl, c0, hcan, hfmt, hout⟩ := postprocess_ok_inv _ _ _ _ hpost
  subst hout
  subst hr
  rfl

/-- C9: after trimming and splitting on `::`, a recognized last token is
consumed as the resource class and removed from the tokens passed to the
grammar, else the class defaults to INSTR with no token consumed; a
successful parse's `resource_class` field records that choice. -/
theorem resource_class_extraction (s : String) :
    tokenize s = ((py_split_dcolon (py_strip s)).headD "",
      claimed_resource_class s, claimed_remaining_tokens s) ∧
    (∀ r, parse_resource_name s = .ok r →
      r "resource_class" = some (.str (claimed_resource_class s))) := by
  refine ⟨tokenize_eq_claimed s, fun r hp => ?_⟩
  have ht : (tokenize s).2.1 = claimed_resource_class s := by
    rw [tokenize_eq_claimed s]
  rw [parse_ok_resource_class s r hp, ht]

/-- C9 witness: the extraction rule at `TCPIP::1.2.3.4::SOCKET`. -/
theorem resource_class_extraction_witness :
    tokenize "TCPIP::1.2.3.4::SOCKET" = ("TCPIP", "SOCKET", ["1.2.3.4"]) ∧
    getOk (parse_resource_name "TCPIP::1.2.3.4::SOCKET") "resource_class"
      = some (.str "SOCKET") :=
  ⟨(resource_class_extraction "TCPIP::1.2.3.4::SOCKET").1,
   (resource_class_extraction "TCPIP::1.2.3.4::SOCKET").2
     (getOk (parse_resource_name "TCPIP::1.2.3.4::SOCKET")) rfl⟩

/-- C10 (amended): the board candidate handed to the grammar is
`str.lstrip` of the original, un-uppercased first token with the matched
interface name's character set — `'0'` from `'GPIB0'`, but the lowercase
`'gpib0'` is left whole.  Stated through the GPIB/INSTR grammar, whose
`board` field receives the candidate (defaulted to `'0'` when empty). -/
theorem board_candidate_is_lstrip :
    (∀ itp parts out, call_subparser itp "INSTR" parts = .ok out →
      py_startswith (py_upper itp) "GPIB" = true →
      out "board" = some (if py_lstrip itp "GPIB" = "" then PyVal.str "0"
        else .str (py_lstrip itp "GPIB"))) ∧
    py_lstrip "GPIB0" "GPIB" = "0" ∧
    py_lstrip "gpib0" "GPIB" = "gpib0" := by
  refine ⟨?_, rfl, rfl⟩
  intro itp parts out h hsw
  have hasrl : py_startswith (py_upper itp) "ASRL" = false := by
    cases ha : py_startswith (py_upper itp) "ASRL"
    · rfl
    · exfalso
      have e1 := startswith_head_eq (py_upper itp) _ hsw (by decide)
      have e2 := startswith_head_eq (py_upper itp) _ ha (by decide)
      exact absurd (e1.symm.trans e2) (by decide)
  unfold call_subparser INTERFACE_TYPES at h
  unfold subparser_loop at h
  rw [hasrl] at h
  simp only [Bool.false_eq_true, if_false] at h
  unfold subparser_loop at h
  rw [if_pos hsw] at h
  rw [show SUBPARSER ("GPIB", "INSTR") = some GPIBInstr from rfl] at h
  dsimp only at h
  cases hpar : GPIBInstr.parse (py_lstrip itp "GPIB") parts with
  | error e => rw [hpar] at h; simp at h
  | ok m0 =>
    rw [hpar] at h
    dsimp only at h
    obtain ⟨tpl, c0, hcan, hfmt, hout⟩ := postprocess_ok_inv _ _ _ _ h
    subst hout
    have hb := GPIBInstr_parse_board _ _ _ hpar
    have hlook : (dupdate (with_meta m0 .gpib "INSTR") "canonical_resource_name"
        (.str c0)) "board" = m0 "board" := rfl
    rw [hlook, hb]

/-- C10 witness: on the lowercase input token `gpib0` the board field is
the whole token. -/
theorem board_candidate_is_lstrip_witness :
    getOk (call_subparser "gpib0" "INSTR" ["14"]) "board" = some (.str "gpib0") :=
  board_candidate_is_lstrip.1 "gpib0" ["14"]
    (getOk (call_subparser "gpib0" "INSTR" ["14"])) rfl (by decide)
